import Mathlib

/-!
Shallow embedding of the parallel_llm orchestration engine
(src/parallel_llm/core.py, src/errors.py, src/parallel_llm/interfaces.py,
src/parallel_llm/config.py).

The remote structured-generation service is opaque: each attempt of a worker
(or of the decision maker) either returns a schema-conformant value of an
abstract type `α` or raises one of the exception classes that
`_make_single_request`'s except clauses distinguish.  Pure data flow is kept
exactly as in the source; `asyncio` concurrency is modelled by the fact that
`asyncio.gather(*tasks, return_exceptions=True)` returns the per-task terminal
outcomes in task-issue order, which is the only property the orchestration
code uses.
-/

namespace PLLM

/-- Exceptions that can escape one attempt of the remote call inside the
`try` of `_make_single_request` (core.py lines 63-96).  The OpenAI error
classes `AuthenticationError` and `APITimeoutError` are subclasses of
`openai.APIError`, so the except-clause dispatch below routes them to the
`openai.APIError` clause; `openai.RateLimitError` has its own clause. -/
inductive AttemptExc where
  | asyncioTimeout
  | openaiRateLimit (detail : String)
  | openaiAuth (detail : String)
  | openaiAPITimeout (detail : String)
  | openaiAPI (detail : String) (status_code : Option Nat)
  | other (detail : String)
deriving DecidableEq, Repr

/-- Outcome of one attempt of the opaque remote call. -/
inductive AttemptOutcome (α : Type) where
  | ok (v : α)
  | exc (e : AttemptExc)
deriving DecidableEq, Repr

/-- The framework error hierarchy of src/errors.py, with the constructor
arguments each `__init__` stores (`error_code` is determined by the class and
is rendered by `FrameworkError.str`). -/
inductive FrameworkError where
  | configuration (message : String)
  | processing (message : String) (failed_processors : Option Nat)
  | decisionMaker (message : String) (fallback_used : Bool)
  | validation (message : String) (invalid_field : Option String)
  | api (message : String) (status_code : Option Nat) (retry_after : Option Nat)
  | timeout (message : String) (timeout_duration : Option Nat)
  | rateLimit (message : String) (retry_after : Option Nat)
  | authentication (message : String)
  | modelErr (message : String) (model_name : Option String)
deriving DecidableEq, Repr

/-- Python truthiness of an optional number (`if self.status_code:` is false
both for `None` and for `0`). -/
def pyTruthy : Option Nat → Bool
  | none => false
  | some n => n != 0

/-- `__str__` of each error class of src/errors.py: the base message is
`[CODE] message`, and subclasses append their stored extras when truthy. -/
def FrameworkError.str : FrameworkError → String
  | .configuration m => "[CONFIG_ERROR] " ++ m
  | .processing m fp =>
      match fp with
      | some n => "[PROCESSING_ERROR] " ++ m ++ " (Failed processors: " ++ toString n ++ ")"
      | none => "[PROCESSING_ERROR] " ++ m
  | .decisionMaker m fb =>
      if fb then "[DECISION_MAKER_ERROR] " ++ m ++ " (Fallback response used)"
      else "[DECISION_MAKER_ERROR] " ++ m
  | .validation m f =>
      match f with
      | some fld => "[VALIDATION_ERROR] " ++ m ++ " (Invalid field: " ++ fld ++ ")"
      | none => "[VALIDATION_ERROR] " ++ m
  | .api m st ra =>
      let base := "[API_ERROR] " ++ m
      let base := if pyTruthy st then base ++ " (Status: " ++ toString (st.getD 0) ++ ")" else base
      if pyTruthy ra then base ++ " (Retry after: " ++ toString (ra.getD 0) ++ "s)" else base
  | .timeout m d =>
      if pyTruthy d then "[TIMEOUT_ERROR] " ++ m ++ " (Timeout: " ++ toString (d.getD 0) ++ "s)"
      else "[TIMEOUT_ERROR] " ++ m
  | .rateLimit m ra =>
      if pyTruthy ra then "[RATE_LIMIT_ERROR] " ++ m ++ " (Retry after: " ++ toString (ra.getD 0) ++ "s)"
      else "[RATE_LIMIT_ERROR] " ++ m
  | .authentication m => "[AUTH_ERROR] " ++ m
  | .modelErr m mn =>
      match mn with
      | some n => "[MODEL_ERROR] " ++ m ++ " (Model: " ++ n ++ ")"
      | none => "[MODEL_ERROR] " ++ m

/-- `handle_openai_error` (src/errors.py lines 135-156): isinstance dispatch
in source order — AuthenticationError, RateLimitError, APITimeoutError,
APIError, else ProcessingError.  Each branch passes `str(error)` as the
message; APIError additionally passes the status code. -/
def handle_openai_error : AttemptExc → FrameworkError
  | .openaiAuth d => .authentication d
  | .openaiRateLimit d => .rateLimit d none
  | .openaiAPITimeout d => .timeout d none
  | .openaiAPI d st => .api d st none
  | .asyncioTimeout => .processing ("OpenAI API error: ") none
  | .other d => .processing ("OpenAI API error: " ++ d) none

/-- `is_retryable_error` (src/errors.py lines 195-226): non-retryable classes
checked first, then retryable classes, unknown errors default to retryable.
`DecisionMakerError` is in neither tuple, so it falls to the default. -/
def is_retryable_error : FrameworkError → Bool
  | .authentication _ => false
  | .validation _ _ => false
  | .configuration _ => false
  | .modelErr _ _ => false
  | .rateLimit _ _ => true
  | .timeout _ _ => true
  | .api _ _ _ => true
  | .processing _ _ => true
  | .decisionMaker _ _ => true

/-- The terminal raise executed by whichever except clause of
`_make_single_request` matched, when `attempt == max_retries`
(core.py lines 78-96).  Clause order: `asyncio.TimeoutError` raises
`ProcessingError(f"Request timed out after N attempts")`;
`openai.RateLimitError` and `openai.APIError` raise `handle_openai_error(e)`
(authentication and API-timeout errors arrive at the APIError clause as
subclasses); the bare `Exception` clause raises
`ProcessingError(f"Unexpected error: e")`. -/
def terminalRaise (e : AttemptExc) (max_retries : Nat) : FrameworkError :=
  match e with
  | .asyncioTimeout =>
      .processing ("Request timed out after " ++ toString (max_retries + 1) ++ " attempts") none
  | .openaiRateLimit _ => handle_openai_error e
  | .openaiAuth _ => handle_openai_error e
  | .openaiAPITimeout _ => handle_openai_error e
  | .openaiAPI _ _ => handle_openai_error e
  | .other d => .processing ("Unexpected error: " ++ d) none

/-- Observable trace of one `_make_single_request` call: the returned value
or raised error, how many attempts the loop executed, and the
`asyncio.sleep(2 ** attempt)` delays performed before each retry. -/
structure RequestTrace (α : Type) where
  result : Except FrameworkError α
  attempts : Nat
  delays : List Nat
deriving Repr

/-- The `for attempt in range(max_retries + 1)` loop of
`_make_single_request` (core.py lines 63-96).  `fuel` is the number of loop
iterations still available (`max_retries + 1 - attempt`); every except clause
retries with `await asyncio.sleep(2 ** attempt)` unless
`attempt == max_retries`, in which case it performs its terminal raise.  The
`fuel = 0` fallback mirrors the loop falling off its end, which is
unreachable because the last iteration always returns or raises. -/
def retryLoop {α : Type} (behavior : Nat → AttemptOutcome α) (max_retries : Nat) :
    Nat → Nat → RequestTrace α
  | _, 0 => ⟨.error (.processing "retry loop exhausted (unreachable)" none), 0, []⟩
  | attempt, fuel + 1 =>
      match behavior attempt with
      | .ok v => ⟨.ok v, 1, []⟩
      | .exc e =>
          if attempt = max_retries then
            ⟨.error (terminalRaise e max_retries), 1, []⟩
          else
            let rest := retryLoop behavior max_retries (attempt + 1) fuel
            ⟨rest.result, rest.attempts + 1, 2 ^ attempt :: rest.delays⟩

/-- `_make_single_request` (core.py lines 42-96) over an opaque per-attempt
behavior of the remote endpoint. -/
def make_single_request {α : Type} (max_retries : Nat)
    (behavior : Nat → AttemptOutcome α) : RequestTrace α :=
  retryLoop behavior max_retries 0 (max_retries + 1)

/-- The configuration fields of `FrameworkConfig`
(src/parallel_llm/config.py) that the orchestration control flow reads.
`timeout`, the model names and the temperatures only parametrise the opaque
remote call and are absorbed into the behavior functions. -/
structure FrameworkConfig where
  num_processors : Nat
  max_retries : Nat
  decision_maker_prompt : String
deriving DecidableEq, Repr

/-- The data assembled by `_process_parallel_requests` (core.py lines
107-133): the per-worker terminal outcomes in task-issue order (what
`asyncio.gather(*tasks, return_exceptions=True)` returns), the successful
results in that same order, and the count of failed workers. -/
structure FanOutReport (α : Type) where
  results : List (Except FrameworkError α)
  successes : List α
  failedCount : Nat
deriving Repr

/-- The fan-out phase of `_process_parallel_requests`: spawn
`num_processors` worker tasks for the identical request, await them all, and
split the outcomes into successes (order preserved) and a failure count.
`worker i` is the opaque remote behavior seen by the task named
`processor_i`. -/
def fanOut {α : Type} (cfg : FrameworkConfig)
    (worker : Nat → Nat → AttemptOutcome α) : FanOutReport α :=
  let results := (List.range cfg.num_processors).map
    (fun i => (make_single_request cfg.max_retries (worker i)).result)
  { results := results
    successes := results.filterMap Except.toOption
    failedCount := results.countP (fun r => !r.isOk) }

/-- Re-raise wrapper of `_process_parallel_requests` (core.py lines
140-143): a `ProcessingError` is re-raised unchanged, any other exception is
wrapped in `ProcessingError(f"Parallel processing error: e")`. -/
def parallelReraise : FrameworkError → FrameworkError
  | .processing m fp => .processing m fp
  | e => .processing ("Parallel processing error: " ++ e.str) none

/-- `_process_parallel_requests` (core.py lines 98-143): returns the list of
successful results, or raises `ProcessingError("All parallel processors
failed", failed_processors=failed_count)` when no worker succeeded. -/
def process_parallel_requests {α : Type} (cfg : FrameworkConfig)
    (worker : Nat → Nat → AttemptOutcome α) : Except FrameworkError (List α) :=
  let rep := fanOut cfg worker
  let body : Except FrameworkError (List α) :=
    if rep.successes.isEmpty then
      .error (.processing "All parallel processors failed" (some rep.failedCount))
    else .ok rep.successes
  body.mapError parallelReraise

/-- A chat message: the `Dict[str, str]` of the source, as an association
list so that `msg['role']` / `msg['content']` lookups can raise `KeyError`
exactly when the key is absent. -/
abbrev Message := List (String × String)

/-- The rendering `f"{msg['role']}: {msg['content']}"` of one original
message inside `_make_decision` (core.py line 166); a missing key raises
`KeyError`. -/
def renderMessage (m : Message) : Except String String :=
  match m.lookup "role" with
  | none => .error "KeyError: role"
  | some r =>
      match m.lookup "content" with
      | none => .error "KeyError: content"
      | some c => .ok (r ++ ": " ++ c)

/-- Outcome of the `try` body of `_make_decision` (core.py lines 152-194):
either the value it would `return`, or the `str` of the exception it raised;
both record how many times `_make_single_request` was invoked for
arbitration. -/
inductive BodyOutcome (α : Type) where
  | value (v : α) (arbitrationCalls : Nat)
  | raised (detail : String) (arbitrationCalls : Nat)
deriving Repr

/-- The numbered serialization of one enumerated candidate
(core.py lines 158-163): `f"Response {i+1}:\n{response_json}"` where
`response_json` comes from the opaque `serialize`
(`model_dump_json(indent=2)` / `json.dumps(..., indent=2, default=str)`,
which may raise). -/
def serializeNumbered {α : Type} (serialize : α → Except String String)
    (p : Nat × α) : Except String String :=
  (serialize p.2).map (fun j => "Response " ++ toString (p.1 + 1) ++ ":\n" ++ j)

/-- The `decision_messages` list built by `_make_decision`
(core.py lines 169-184) from the already-joined original context and
candidate listing. -/
def decisionMessages (cfg : FrameworkConfig)
    (original_context all_responses : String) : List Message :=
  [ [("role", "system"), ("content", cfg.decision_maker_prompt)],
    [("role", "user"),
     ("content",
       "Original Query Context:\n" ++ original_context ++
       "\n\nAll Responses to Analyze:\n" ++ all_responses ++
       "\n\nPlease analyze these responses and return the best one or synthesize a better response using the same format as the original responses.")] ]

/-- The `try` body of `_make_decision` (core.py lines 152-194): the
`if len(responses) == 1: return responses[0]` short-circuit (the `[r]`
branch), then candidate serialization, context rendering, decision-message
construction and the single arbitration call, in source order; an exception
in any step aborts the body.  `decisionRemote` is the per-attempt behavior
of the decision-maker model for the constructed messages. -/
def decisionBody {α : Type} (cfg : FrameworkConfig) (responses : List α)
    (serialize : α → Except String String) (original_messages : List Message)
    (decisionRemote : List Message → Nat → AttemptOutcome α) : BodyOutcome α :=
  match responses with
  | [r] => .value r 0
  | _ =>
      match responses.enum.mapM (serializeNumbered serialize) with
      | .error m => .raised m 0
      | .ok response_texts =>
          match original_messages.mapM renderMessage with
          | .error m => .raised m 0
          | .ok ctxParts =>
              match (make_single_request cfg.max_retries
                      (decisionRemote (decisionMessages cfg
                        (String.intercalate "\n" ctxParts)
                        (String.intercalate "\n\n" response_texts)))).result with
              | .ok v => .value v 1
              | .error e => .raised e.str 1

/-- Observable trace of one `_make_decision` call. -/
structure DecisionTrace (α : Type) where
  result : Except FrameworkError α
  arbitrationCalls : Nat
deriving Repr

/-- `_make_decision` (core.py lines 145-200): run the try body; on any
exception, fall back to `responses[0]` when `responses` is non-empty,
otherwise raise `DecisionMakerError(f"Decision maker failed and no fallback
available: e")` (whose `fallback_used` flag keeps its default `False`). -/
def make_decision {α : Type} (cfg : FrameworkConfig) (responses : List α)
    (serialize : α → Except String String) (original_messages : List Message)
    (decisionRemote : List Message → Nat → AttemptOutcome α) : DecisionTrace α :=
  match decisionBody cfg responses serialize original_messages decisionRemote with
  | .value v c => ⟨.ok v, c⟩
  | .raised m c =>
      match responses with
      | r :: _ => ⟨.ok r, c⟩
      | [] => ⟨.error (.decisionMaker
          ("Decision maker failed and no fallback available: " ++ m) false), c⟩

/-- What the final-validation step of `_parse_internal` (core.py lines
251-258) does with the decision result: `conforms` is
`isinstance(final_response, response_format)` being true (return as-is),
`coerced v` is a successful `model_validate` pass returning `v`, `failed d`
is `model_validate` raising (message `d`), which becomes
`ValidationError(f"Failed to validate final response: d")`. -/
inductive FinalizeOutcome (α : Type) where
  | conforms
  | coerced (v : α)
  | failed (detail : String)
deriving Repr

/-- The outer except clauses of `_parse_internal` (core.py lines 262-265):
`ValidationError`, `ConfigurationError`, `ProcessingError` and
`DecisionMakerError` are re-raised unchanged; any other exception becomes
`ProcessingError(f"Unexpected error: e")`. -/
def outerExcept : FrameworkError → FrameworkError
  | .validation m f => .validation m f
  | .configuration m => .configuration m
  | .processing m fp => .processing m fp
  | .decisionMaker m fb => .decisionMaker m fb
  | e => .processing ("Unexpected error: " ++ e.str) none

/-- Observable trace of one `_parse_internal` call: the returned value or
raised error, how many worker tasks the fan-out spawned, how many times
`_make_decision` was entered, and how many remote arbitration calls
`_make_decision` issued. -/
structure ParseTrace (α : Type) where
  result : Except FrameworkError α
  workerCalls : Nat
  decisionInvocations : Nat
  arbitrationCalls : Nat
deriving Repr

/-- The `try` body of `_parse_internal` (core.py lines 223-260): the four
input validations in source order, then the fan-out, then the decision step,
then the final-format validation.  `response_format_present` is the
truthiness of `response_format`; `response_format_is_base_model` is
`issubclass(response_format, BaseModel)`; `finalize` is the opaque
`isinstance` / `model_validate` behavior of `response_format` on the final
value; `extra` are the `**kwargs` forwarded verbatim to every worker's
remote call (the decision call forwards none). -/
def parseBody {α : Type} (cfg : FrameworkConfig) (model : String)
    (messages : List Message)
    (response_format_present response_format_is_base_model : Bool)
    (finalize : α → FinalizeOutcome α) (extra : List (String × String))
    (workerRemote : List (String × String) → Nat → Nat → AttemptOutcome α)
    (serialize : α → Except String String)
    (decisionRemote : List Message → Nat → AttemptOutcome α) : ParseTrace α :=
  if model = "" then
    ⟨.error (.validation "Model name is required" none), 0, 0, 0⟩
  else if messages = [] then
    ⟨.error (.validation "Messages are required" none), 0, 0, 0⟩
  else if !response_format_present then
    ⟨.error (.validation "Response format is required" none), 0, 0, 0⟩
  else if !response_format_is_base_model then
    ⟨.error (.validation "Response format must be a Pydantic BaseModel" none), 0, 0, 0⟩
  else
    match process_parallel_requests cfg (workerRemote extra) with
    | .error e => ⟨.error e, cfg.num_processors, 0, 0⟩
    | .ok parallel_responses =>
        let d := make_decision cfg parallel_responses serialize messages decisionRemote
        match d.result with
        | .error e => ⟨.error e, cfg.num_processors, 1, d.arbitrationCalls⟩
        | .ok final_response =>
            match finalize final_response with
            | .conforms =>
                ⟨.ok final_response, cfg.num_processors, 1, d.arbitrationCalls⟩
            | .coerced v =>
                ⟨.ok v, cfg.num_processors, 1, d.arbitrationCalls⟩
            | .failed detail =>
                ⟨.error (.validation ("Failed to validate final response: " ++ detail) none),
                 cfg.num_processors, 1, d.arbitrationCalls⟩

/-- `_parse_internal` (core.py lines 202-265): the try body with the outer
except clauses applied to whatever it raises. -/
def parse_internal {α : Type} (cfg : FrameworkConfig) (model : String)
    (messages : List Message)
    (response_format_present response_format_is_base_model : Bool)
    (finalize : α → FinalizeOutcome α) (extra : List (String × String))
    (workerRemote : List (String × String) → Nat → Nat → AttemptOutcome α)
    (serialize : α → Except String String)
    (decisionRemote : List Message → Nat → AttemptOutcome α) : ParseTrace α :=
  let t := parseBody cfg model messages response_format_present
    response_format_is_base_model finalize extra workerRemote serialize decisionRemote
  { t with result := t.result.mapError outerExcept }

/-- `ParallelLLM.parse` (core.py lines 267-294): forwards its arguments to
`_parse_internal` unchanged and returns the direct (unwrapped) result. -/
def parse {α : Type} (cfg : FrameworkConfig) (model : String)
    (messages : List Message)
    (response_format_present response_format_is_base_model : Bool)
    (finalize : α → FinalizeOutcome α) (extra : List (String × String))
    (workerRemote : List (String × String) → Nat → Nat → AttemptOutcome α)
    (serialize : α → Except String String)
    (decisionRemote : List Message → Nat → AttemptOutcome α) : ParseTrace α :=
  parse_internal cfg model messages response_format_present
    response_format_is_base_model finalize extra workerRemote serialize decisionRemote

/-- `ParsedMessage` (interfaces.py lines 12-15). -/
structure ParsedMessage (α : Type) where
  parsed : α
deriving DecidableEq, Repr

/-- `Choice` (interfaces.py lines 18-27). -/
structure Choice (α : Type) where
  message : ParsedMessage α
deriving DecidableEq, Repr

/-- `ParallelCompletion` (interfaces.py lines 30-39): built from a parsed
value as `choices=[Choice(parsed_content)]`. -/
structure ParallelCompletion (α : Type) where
  choices : List (Choice α)
deriving DecidableEq, Repr

/-- Observable trace of one `ParallelCompletionInterface.parse` call. -/
structure BetaTrace (α : Type) where
  result : Except FrameworkError (ParallelCompletion α)
  workerCalls : Nat
  decisionInvocations : Nat
  arbitrationCalls : Nat
deriving Repr

/-- `ParallelCompletionInterface.parse` (interfaces.py lines 48-77): calls
`_parse_internal` with `pass_reasoning=pass_reasoning` merged into the
forwarded `**kwargs` (so it reaches every worker's remote call), then wraps
the parsed result in `ParallelCompletion(parsed_result)`. -/
def completions_parse {α : Type} (cfg : FrameworkConfig) (model : String)
    (messages : List Message)
    (response_format_present response_format_is_base_model : Bool)
    (finalize : α → FinalizeOutcome α) (pass_reasoning : Bool)
    (extra : List (String × String))
    (workerRemote : List (String × String) → Nat → Nat → AttemptOutcome α)
    (serialize : α → Except String String)
    (decisionRemote : List Message → Nat → AttemptOutcome α) : BetaTrace α :=
  let t := parse_internal cfg model messages response_format_present
    response_format_is_base_model finalize
    (("pass_reasoning", toString pass_reasoning) :: extra)
    workerRemote serialize decisionRemote
  { result := t.result.map (fun v => ⟨[⟨⟨v⟩⟩]⟩)
    workerCalls := t.workerCalls
    decisionInvocations := t.decisionInvocations
    arbitrationCalls := t.arbitrationCalls }

/-! Helper lemmas about the retry loop and the fan-out bookkeeping. -/

lemma retryLoop_succ {α : Type} (behavior : Nat → AttemptOutcome α) (R attempt fuel : Nat) :
    retryLoop behavior R attempt (fuel + 1) =
      match behavior attempt with
      | .ok v => ⟨.ok v, 1, []⟩
      | .exc e =>
          if attempt = R then
            ⟨.error (terminalRaise e R), 1, []⟩
          else
            ⟨(retryLoop behavior R (attempt + 1) fuel).result,
             (retryLoop behavior R (attempt + 1) fuel).attempts + 1,
             2 ^ attempt :: (retryLoop behavior R (attempt + 1) fuel).delays⟩ := rfl

lemma retryLoop_spec {α : Type} (behavior : Nat → AttemptOutcome α) (R : Nat) :
    ∀ fuel attempt, attempt + fuel = R + 1 → attempt ≤ R →
      1 ≤ (retryLoop behavior R attempt fuel).attempts ∧
      (retryLoop behavior R attempt fuel).attempts ≤ fuel ∧
      (retryLoop behavior R attempt fuel).delays =
        (List.range' attempt ((retryLoop behavior R attempt fuel).attempts - 1)).map (2 ^ ·) := by
  intro fuel
  induction fuel with
  | zero => intro attempt h1 h2; omega
  | succ fuel ih =>
      intro attempt h1 h2
      rw [retryLoop_succ]
      cases hb : behavior attempt with
      | ok v => simp
      | exc e =>
          by_cases hR : attempt = R
          · simp [hR]
          · simp only [if_neg hR]
            have h1' : (attempt + 1) + fuel = R + 1 := by omega
            have h2' : attempt + 1 ≤ R := by omega
            obtain ⟨ha1, ha2, hd⟩ := ih (attempt + 1) h1' h2'
            refine ⟨by simp, by simpa using ha2, ?_⟩
            obtain ⟨k, hk⟩ : ∃ k, (retryLoop behavior R (attempt + 1) fuel).attempts = k + 1 :=
              ⟨(retryLoop behavior R (attempt + 1) fuel).attempts - 1, by omega⟩
            rw [hk] at hd ⊢
            simp only [Nat.add_sub_cancel] at hd ⊢
            rw [List.range'_succ attempt k 1, List.map_cons, hd]

lemma chain'_pow2_range' : ∀ (n s : Nat),
    List.Chain' (fun a b => a ≤ b) ((List.range' s n).map (2 ^ ·)) := by
  intro n
  induction n with
  | zero => intro s; simp
  | succ n ih =>
      intro s
      cases n with
      | zero => simp
      | succ m =>
          rw [List.range'_succ s (m+1) 1, List.map_cons]
          rw [List.range'_succ (s+1) m 1, List.map_cons]
          refine List.chain'_cons.mpr ⟨Nat.pow_le_pow_right (by norm_num) (by omega), ?_⟩
          have h := ih (s + 1)
          rwa [List.range'_succ (s+1) m 1, List.map_cons] at h

lemma retryLoop_allExc {α : Type} (behavior : Nat → AttemptOutcome α) (R : Nat)
    (es : Nat → AttemptExc) (hb : ∀ i, behavior i = .exc (es i)) :
    ∀ fuel attempt, attempt + fuel = R + 1 → attempt ≤ R →
      retryLoop behavior R attempt fuel =
        ⟨.error (terminalRaise (es R) R), fuel,
         (List.range' attempt (fuel - 1)).map (2 ^ ·)⟩ := by
  intro fuel
  induction fuel with
  | zero => intro attempt h1 h2; omega
  | succ fuel ih =>
      intro attempt h1 h2
      rw [retryLoop_succ, hb attempt]
      by_cases hR : attempt = R
      · have hf : fuel = 0 := by omega
        subst hf; subst hR
        simp
      · simp only [if_neg hR]
        have h1' : (attempt + 1) + fuel = R + 1 := by omega
        have h2' : attempt + 1 ≤ R := by omega
        rw [ih (attempt + 1) h1' h2']
        obtain ⟨k, hk⟩ : ∃ k, fuel = k + 1 := ⟨fuel - 1, by omega⟩
        subst hk
        simp
        rw [List.range'_succ attempt k 1, List.map_cons]

lemma succPlusFail {α : Type} (l : List (Except FrameworkError α)) :
    (l.filterMap Except.toOption).length + l.countP (fun r => !r.isOk) = l.length := by
  induction l with
  | nil => simp
  | cons r l ih =>
      cases r with
      | ok v =>
          simp [List.countP_cons, Except.toOption, Except.isOk, Except.toBool] at ih ⊢
          omega
      | error e =>
          simp [List.countP_cons, Except.toOption, Except.isOk, Except.toBool] at ih ⊢
          omega

lemma mapM_allOk {β γ : Type} (f : β → Except String γ) (l : List β)
    (h : ∀ x ∈ l, ∃ y, f x = .ok y) :
    ∃ ys, l.mapM f = .ok ys := by
  induction l with
  | nil => exact ⟨[], rfl⟩
  | cons x l ih =>
      obtain ⟨y, hy⟩ := h x (by simp)
      obtain ⟨ys, hys⟩ := ih (fun z hz => h z (by simp [hz]))
      refine ⟨y :: ys, ?_⟩
      rw [List.mapM_cons, hy, hys]
      rfl

lemma exists_error_of_isOk_false {α : Type} {r : Except FrameworkError α}
    (h : r.isOk = false) : ∃ e, r = .error e := by
  cases r with
  | ok v => simp [Except.isOk, Except.toBool] at h
  | error e => exact ⟨e, rfl⟩

lemma process_allFail {α : Type} (cfg : FrameworkConfig)
    (worker : Nat → Nat → AttemptOutcome α)
    (hall : ∀ i, i < cfg.num_processors →
      ((make_single_request cfg.max_retries (worker i)).result).isOk = false) :
    process_parallel_requests cfg worker =
      .error (.processing "All parallel processors failed" (some cfg.num_processors)) := by
  have hres : ∀ r ∈ (List.range cfg.num_processors).map
      (fun i => (make_single_request cfg.max_retries (worker i)).result),
      r.isOk = false := by
    intro r hr
    rw [List.mem_map] at hr
    obtain ⟨i, hi, rfl⟩ := hr
    exact hall i (List.mem_range.mp hi)
  have h1 : ((List.range cfg.num_processors).map
      (fun i => (make_single_request cfg.max_retries (worker i)).result)).filterMap
      Except.toOption = [] := by
    apply List.filterMap_eq_nil_iff.mpr
    intro r hr
    obtain ⟨e, he⟩ := exists_error_of_isOk_false (hres r hr)
    rw [he]; rfl
  have h2 : ((List.range cfg.num_processors).map
      (fun i => (make_single_request cfg.max_retries (worker i)).result)).countP
      (fun r => !r.isOk) = cfg.num_processors := by
    have hlen : ((List.range cfg.num_processors).map
        (fun i => (make_single_request cfg.max_retries (worker i)).result)).length
        = cfg.num_processors := by simp
    rw [List.countP_eq_length.mpr, hlen]
    intro r hr
    rw [hres r hr]; rfl
  simp only [process_parallel_requests, fanOut, h1, h2, List.isEmpty_nil, if_true]
  rfl

lemma process_ok {α : Type} (cfg : FrameworkConfig)
    (worker : Nat → Nat → AttemptOutcome α) (vs : List α)
    (hsucc : (fanOut cfg worker).successes = vs) (hne : vs ≠ []) :
    process_parallel_requests cfg worker = .ok vs := by
  simp only [process_parallel_requests, hsucc]
  rw [if_neg (by simpa using hne)]
  rfl

lemma decisionBody_cons_cons {α : Type} (cfg : FrameworkConfig) (a b : α) (l : List α)
    (serialize : α → Except String String) (messages : List Message)
    (dr : List Message → Nat → AttemptOutcome α) :
    decisionBody cfg (a :: b :: l) serialize messages dr =
      match (a :: b :: l).enum.mapM (serializeNumbered serialize) with
      | .error m => .raised m 0
      | .ok response_texts =>
          match messages.mapM renderMessage with
          | .error m => .raised m 0
          | .ok ctxParts =>
              match (make_single_request cfg.max_retries
                      (dr (decisionMessages cfg
                        (String.intercalate "\n" ctxParts)
                        (String.intercalate "\n\n" response_texts)))).result with
              | .ok v => .value v 1
              | .error e => .raised e.str 1 := rfl

lemma make_decision_fallback {α : Type} (cfg : FrameworkConfig) (v1 v2 : α) (rest : List α)
    (serialize : α → Except String String) (messages : List Message)
    (dr : List Message → Nat → AttemptOutcome α)
    (hser : ∀ x, ∃ s, serialize x = .ok s)
    (hren : ∀ m ∈ messages, ∃ s, renderMessage m = .ok s)
    (harb : ∀ msgs, ((make_single_request cfg.max_retries (dr msgs)).result).isOk = false) :
    make_decision cfg (v1 :: v2 :: rest) serialize messages dr = ⟨.ok v1, 1⟩ := by
  obtain ⟨ys, hys⟩ := mapM_allOk (serializeNumbered serialize) (v1 :: v2 :: rest).enum
    (fun p _ => by
      obtain ⟨s, hs⟩ := hser p.2
      refine ⟨"Response " ++ toString (p.1 + 1) ++ ":\n" ++ s, ?_⟩
      rw [serializeNumbered, hs]
      rfl)
  obtain ⟨cs, hcs⟩ := mapM_allOk renderMessage messages hren
  obtain ⟨e, he⟩ := exists_error_of_isOk_false
    (harb (decisionMessages cfg (String.intercalate "\n" cs) (String.intercalate "\n\n" ys)))
  simp only [make_decision, decisionBody_cons_cons, hys, hcs, he]

/-! The claims. -/

/-- Claim C1: for every request on which all N spawned workers terminally
fail, `_parse_internal` raises the `ProcessingError` with
`failed_processors` equal to N (`cfg.num_processors`), and the decision
maker (`_make_decision`) is never entered, so no arbitration call is
issued. -/
theorem c1_all_fail {α : Type} (cfg : FrameworkConfig) (model : String)
    (messages : List Message) (finalize : α → FinalizeOutcome α)
    (extra : List (String × String))
    (workerRemote : List (String × String) → Nat → Nat → AttemptOutcome α)
    (serialize : α → Except String String)
    (decisionRemote : List Message → Nat → AttemptOutcome α)
    (hm : model ≠ "") (hmsg : messages ≠ [])
    (hall : ∀ i, i < cfg.num_processors →
      ((make_single_request cfg.max_retries (workerRemote extra i)).result).isOk = false) :
    parse_internal cfg model messages true true finalize extra workerRemote
        serialize decisionRemote =
      ⟨.error (.processing "All parallel processors failed" (some cfg.num_processors)),
       cfg.num_processors, 0, 0⟩ := by
  have hproc := process_allFail cfg (workerRemote extra) hall
  simp only [parse_internal, parseBody, if_neg hm, if_neg hmsg, hproc]
  rfl

/-- Witness for C1: two workers that always hit rate limits with
`max_retries = 1` make `_parse_internal` raise
`ProcessingError(failed_processors=2)` without entering the decision
maker. -/
theorem c1_witness :
    ("gpt-4o" ≠ "" ∧ ([[("role", "user"), ("content", "q")]] : List Message) ≠ []) ∧
    parse_internal (α := Nat) ⟨2, 1, "P"⟩ "gpt-4o" [[("role", "user"), ("content", "q")]]
        true true (fun _ => .conforms) []
        (fun _ _ _ => .exc (.openaiRateLimit "throttled"))
        (fun n => .ok (toString n)) (fun _ _ => .ok 0) =
      ⟨.error (.processing "All parallel processors failed" (some 2)), 2, 0, 0⟩ :=
  ⟨⟨by decide, by decide⟩,
   c1_all_fail ⟨2, 1, "P"⟩ "gpt-4o" [[("role", "user"), ("content", "q")]]
     (fun _ => .conforms) [] (fun _ _ _ => .exc (.openaiRateLimit "throttled"))
     (fun n => .ok (toString n)) (fun _ _ => .ok 0)
     (by decide) (by decide) (fun i _ => rfl)⟩

/-- Claim C2: when exactly one worker succeeds (the fan-out success list is
`[v]` and `v` conforms to the response format), the caller receives exactly
`v` and no arbitration call is issued (`arbitrationCalls = 0`). -/
theorem c2_single_success {α : Type} (cfg : FrameworkConfig) (model : String)
    (messages : List Message) (finalize : α → FinalizeOutcome α)
    (extra : List (String × String))
    (workerRemote : List (String × String) → Nat → Nat → AttemptOutcome α)
    (serialize : α → Except String String)
    (decisionRemote : List Message → Nat → AttemptOutcome α) (v : α)
    (hm : model ≠ "") (hmsg : messages ≠ [])
    (hsucc : (fanOut cfg (workerRemote extra)).successes = [v])
    (hfin : finalize v = .conforms) :
    parse_internal cfg model messages true true finalize extra workerRemote
        serialize decisionRemote =
      ⟨.ok v, cfg.num_processors, 1, 0⟩ := by
  have hproc := process_ok cfg (workerRemote extra) [v] hsucc (by simp)
  simp only [parse_internal, parseBody, if_neg hm, if_neg hmsg, hproc]
  have hdec : make_decision cfg [v] serialize messages decisionRemote = ⟨.ok v, 0⟩ := rfl
  simp only [hdec, hfin]
  rfl

/-- Witness for C2: with two workers of which only the first succeeds (value
5), the caller receives 5 and no arbitration call is made. -/
theorem c2_witness :
    (fanOut (α := Nat) ⟨2, 0, "P"⟩
        ((fun (_ : List (String × String)) (i _ : Nat) =>
          if i = 0 then AttemptOutcome.ok 5 else .exc (.other "x")) [])).successes = [5] ∧
    parse_internal (α := Nat) ⟨2, 0, "P"⟩ "gpt-4o" [[("role", "user"), ("content", "q")]]
        true true (fun _ => .conforms) []
        (fun _ i _ => if i = 0 then .ok 5 else .exc (.other "x"))
        (fun n => .ok (toString n)) (fun _ _ => .ok 0) =
      ⟨.ok 5, 2, 1, 0⟩ :=
  ⟨rfl,
   c2_single_success ⟨2, 0, "P"⟩ "gpt-4o" [[("role", "user"), ("content", "q")]]
     (fun _ => .conforms) []
     (fun _ i _ => if i = 0 then .ok 5 else .exc (.other "x"))
     (fun n => .ok (toString n)) (fun _ _ => .ok 0) 5
     (by decide) (by decide) rfl rfl⟩

/-- Claim C3 as amended: when at least two workers succeed and the
arbitration call terminally fails after its own retries, the caller receives
exactly the first successful candidate in preserved worker-issue order, and
no caller-visible error is raised.  (The original claim additionally said
the result is marked as fallback used for observability; the
counterexample `c3_counterexample` shows no such marking exists.) -/
theorem c3_fallback_first_success {α : Type} (cfg : FrameworkConfig) (model : String)
    (messages : List Message) (finalize : α → FinalizeOutcome α)
    (extra : List (String × String))
    (workerRemote : List (String × String) → Nat → Nat → AttemptOutcome α)
    (serialize : α → Except String String)
    (decisionRemote : List Message → Nat → AttemptOutcome α)
    (v1 v2 : α) (rest : List α)
    (hm : model ≠ "") (hmsg : messages ≠ [])
    (hsucc : (fanOut cfg (workerRemote extra)).successes = v1 :: v2 :: rest)
    (hser : ∀ x, ∃ s, serialize x = .ok s)
    (hren : ∀ m ∈ messages, ∃ s, renderMessage m = .ok s)
    (harb : ∀ msgs,
      ((make_single_request cfg.max_retries (decisionRemote msgs)).result).isOk = false)
    (hfin : finalize v1 = .conforms) :
    parse_internal cfg model messages true true finalize extra workerRemote
        serialize decisionRemote =
      ⟨.ok v1, cfg.num_processors, 1, 1⟩ := by
  have hproc := process_ok cfg (workerRemote extra) (v1 :: v2 :: rest) hsucc (by simp)
  have hdec := make_decision_fallback cfg v1 v2 rest serialize messages decisionRemote
    hser hren harb
  simp only [parse_internal, parseBody, if_neg hm, if_neg hmsg, hproc, hdec, hfin]
  rfl

/-- Witness for C3 (amended): two workers succeed with values 1 and 2, the
arbitration call always fails, and the caller receives 1 (the first success)
as an ordinary success. -/
theorem c3_witness :
    (fanOut (α := Nat) ⟨2, 0, "P"⟩
        ((fun (_ : List (String × String)) (i _ : Nat) => AttemptOutcome.ok (i + 1)) [])).successes
      = [1, 2] ∧
    parse_internal (α := Nat) ⟨2, 0, "P"⟩ "gpt-4o" [[("role", "user"), ("content", "q")]]
        true true (fun _ => .conforms) [] (fun _ i _ => .ok (i + 1))
        (fun n => .ok (toString n)) (fun _ _ => .exc (.other "boom")) =
      ⟨.ok 1, 2, 1, 1⟩ :=
  ⟨rfl,
   c3_fallback_first_success ⟨2, 0, "P"⟩ "gpt-4o" [[("role", "user"), ("content", "q")]]
     (fun _ => .conforms) [] (fun _ i _ => .ok (i + 1))
     (fun n => .ok (toString n)) (fun _ _ => .exc (.other "boom")) 1 2 []
     (by decide) (by decide) rfl
     (fun x => ⟨toString x, rfl⟩)
     (by
       intro m hm
       simp only [List.mem_singleton] at hm
       subst hm
       exact ⟨"user: q", rfl⟩)
     (fun msgs => rfl) rfl⟩

/-- Counterexample for C3 as stated: the complete observable trace of a run
in which the arbitration call fails (so the first-candidate fallback is
used) is EQUAL to the trace of a run in which arbitration succeeded with the
same value — the returned result carries no fallback marking of any kind, so
the result is not "marked as fallback used for observability".  The extra
conjuncts confirm the parts of the claim that do hold: the first successful
candidate is returned and no caller-visible error is raised. -/
theorem c3_counterexample :
    parse_internal (α := Nat) ⟨2, 0, "P"⟩ "m" [[("role", "user"), ("content", "q")]] true true
        (fun _ => .conforms) [] (fun _ i _ => .ok (i + 1))
        (fun n => .ok (toString n)) (fun _ _ => .exc (.other "boom")) =
      parse_internal (α := Nat) ⟨2, 0, "P"⟩ "m" [[("role", "user"), ("content", "q")]] true true
        (fun _ => .conforms) [] (fun _ i _ => .ok (i + 1))
        (fun n => .ok (toString n)) (fun _ _ => .ok 1) ∧
    (parse_internal (α := Nat) ⟨2, 0, "P"⟩ "m" [[("role", "user"), ("content", "q")]] true true
        (fun _ => .conforms) [] (fun _ i _ => .ok (i + 1))
        (fun n => .ok (toString n)) (fun _ _ => .exc (.other "boom"))).result = .ok 1 ∧
    (parse_internal (α := Nat) ⟨2, 0, "P"⟩ "m" [[("role", "user"), ("content", "q")]] true true
        (fun _ => .conforms) [] (fun _ i _ => .ok (i + 1))
        (fun n => .ok (toString n)) (fun _ _ => .exc (.other "boom"))).arbitrationCalls = 1 :=
  ⟨rfl, rfl, rfl⟩

/-- Claim C4 (refuting theorem): an authentication failure is NOT terminal
after one attempt.  A worker whose every attempt raises
`openai.AuthenticationError` with `max_retries = 1` performs 2 attempts
(the error is retried), even though the code base classifies
`AuthenticationError` as non-retryable in `is_retryable_error` — the retry
loop of `_make_single_request` never consults that classifier, because
`AuthenticationError` is caught by the `openai.APIError` clause, which
retries unconditionally. -/
theorem c4_auth_retried :
    (make_single_request (α := Nat) 1 (fun _ => .exc (.openaiAuth "invalid api key"))).attempts = 2 ∧
    (make_single_request (α := Nat) 1 (fun _ => .exc (.openaiAuth "invalid api key"))).result =
      .error (.authentication "invalid api key") ∧
    is_retryable_error (.authentication "invalid api key") = false :=
  ⟨rfl, rfl, rfl⟩

/-- Claim C5: a worker configured with `max_retries = R` performs at least 1
and at most `R + 1` attempts; the backoff delays are exactly `2 ^ 0, 2 ^ 1,
...` (starting at 1 unit and doubling per attempt index), one before each
retry and none after the final attempt (their count is `attempts - 1`), and
they are non-decreasing. -/
theorem c5_retry_bound_and_backoff {α : Type} (R : Nat) (behavior : Nat → AttemptOutcome α) :
    1 ≤ (make_single_request R behavior).attempts ∧
    (make_single_request R behavior).attempts ≤ R + 1 ∧
    (make_single_request R behavior).delays =
      (List.range ((make_single_request R behavior).attempts - 1)).map (2 ^ ·) ∧
    List.Chain' (fun a b => a ≤ b) (make_single_request R behavior).delays := by
  have h := retryLoop_spec behavior R (R + 1) 0 (by omega) (by omega)
  refine ⟨h.1, h.2.1, ?_, ?_⟩
  · rw [List.range_eq_range']
    exact h.2.2
  · have hd : (make_single_request R behavior).delays =
        (List.range' 0 ((make_single_request R behavior).attempts - 1)).map (2 ^ ·) := h.2.2
    rw [hd]
    exact chain'_pow2_range' _ _

/-- Claim C6 as amended: when every attempt fails, the worker performs
`max_retries + 1` attempts and the LAST classified failure becomes the
terminal error; for OpenAI-classified failures the kind and the detail
message are preserved (`RateLimitError`, `AuthenticationError`,
`APITimeoutError`, `APIError` keep their kind and `str(error)`).  (The
original claim additionally said a final timed-out attempt surfaces a
timeout-kind failure; `c6_counterexample` shows it surfaces a
Processing-kind failure instead.) -/
theorem c6_exhaustion_last_failure {α : Type} (R : Nat) (behavior : Nat → AttemptOutcome α)
    (es : Nat → AttemptExc) (hb : ∀ i, behavior i = .exc (es i)) :
    (make_single_request R behavior).attempts = R + 1 ∧
    (make_single_request R behavior).result = .error (terminalRaise (es R) R) ∧
    (∀ d, terminalRaise (.openaiRateLimit d) R = .rateLimit d none) ∧
    (∀ d, terminalRaise (.openaiAuth d) R = .authentication d) ∧
    (∀ d, terminalRaise (.openaiAPITimeout d) R = .timeout d none) ∧
    (∀ d st, terminalRaise (.openaiAPI d st) R = .api d st none) := by
  have h := retryLoop_allExc behavior R es hb (R + 1) 0 (by omega) (by omega)
  have hm : make_single_request R behavior =
      retryLoop behavior R 0 (R + 1) := rfl
  refine ⟨?_, ?_, fun d => rfl, fun d => rfl, fun d => rfl, fun d st => rfl⟩
  · rw [hm, h]
  · rw [hm, h]

/-- Witness for C6 (amended): a worker rate-limited on both of its attempts
with `max_retries = 1` terminally fails with a `RateLimitError` carrying the
original detail. -/
theorem c6_exhaustion_witness :
    (make_single_request (α := Nat) 1 (fun _ => .exc (.openaiRateLimit "throttled"))).attempts = 2 ∧
    (make_single_request (α := Nat) 1 (fun _ => .exc (.openaiRateLimit "throttled"))).result =
      .error (.rateLimit "throttled" none) :=
  have h := c6_exhaustion_last_failure (α := Nat) 1
    (fun _ => .exc (.openaiRateLimit "throttled"))
    (fun _ => .openaiRateLimit "throttled") (fun _ => rfl)
  ⟨h.1, by rw [h.2.1]; rfl⟩

/-- Counterexample for C6 as stated: a worker whose final (only) attempt
times out surfaces a Processing-kind failure
(`ProcessingError("Request timed out after 1 attempts")`), not a
timeout-kind failure. -/
theorem c6_counterexample :
    (make_single_request (α := Nat) 0 (fun _ => .exc .asyncioTimeout)).result =
      .error (.processing "Request timed out after 1 attempts" none) ∧
    ∀ m d, (make_single_request (α := Nat) 0 (fun _ => .exc .asyncioTimeout)).result ≠
      .error (.timeout m d) := by
  refine ⟨rfl, fun m d h => ?_⟩
  have h2 : Except.error (α := Nat)
      (FrameworkError.processing "Request timed out after 1 attempts" none) =
      Except.error (FrameworkError.timeout m d) := h
  cases h2

/-- Claim C7: a completed fan-out over `num_processors` configured workers
always produces exactly that many per-worker results, each a success or a
failure, and the number of collected successes plus the counted failures
equals the configured worker count. -/
theorem c7_fanout_invariant {α : Type} (cfg : FrameworkConfig)
    (worker : Nat → Nat → AttemptOutcome α) :
    (fanOut cfg worker).results.length = cfg.num_processors ∧
    (fanOut cfg worker).successes.length + (fanOut cfg worker).failedCount = cfg.num_processors ∧
    ∀ r ∈ (fanOut cfg worker).results, (∃ v, r = .ok v) ∨ ∃ e, r = .error e := by
  refine ⟨?_, ?_, ?_⟩
  · simp [fanOut]
  · have h := succPlusFail ((List.range cfg.num_processors).map
      (fun i => (make_single_request cfg.max_retries (worker i)).result))
    simpa [fanOut] using h
  · intro r _hr
    cases r with
    | ok v => exact Or.inl ⟨v, rfl⟩
    | error e => exact Or.inr ⟨e, rfl⟩

/-- Claim C8 (refuting theorem): the two presentations do NOT have identical
semantics for every fixed remote behavior, because
`ParallelCompletionInterface.parse` forwards `pass_reasoning` into the
remote call's extra parameters while the direct `parse` does not.  Against a
remote behavior that rejects the unknown `pass_reasoning` parameter (as the
real OpenAI client does), the direct presentation returns the value while
the beta presentation raises a Processing error. -/
theorem c8_beta_divergence :
    (parse (α := Nat) ⟨1, 0, "P"⟩ "m" [[("role", "user"), ("content", "q")]] true true
        (fun _ => .conforms) []
        (fun extra _ _ =>
          if (extra.lookup "pass_reasoning").isSome then
            .exc (.other "unexpected keyword argument pass_reasoning")
          else .ok 7)
        (fun n => .ok (toString n)) (fun _ _ => .ok 7)).result = .ok 7 ∧
    (completions_parse (α := Nat) ⟨1, 0, "P"⟩ "m" [[("role", "user"), ("content", "q")]] true true
        (fun _ => .conforms) false []
        (fun extra _ _ =>
          if (extra.lookup "pass_reasoning").isSome then
            .exc (.other "unexpected keyword argument pass_reasoning")
          else .ok 7)
        (fun n => .ok (toString n)) (fun _ _ => .ok 7)).result =
      .error (.processing "All parallel processors failed" (some 1)) :=
  ⟨rfl, rfl⟩

/-- Claim C9: for every non-empty candidate list, `_make_decision` returns a
value and never raises; any exception raised anywhere inside its try body —
serialization, context rendering, or the arbitration call — is absorbed by
returning the first candidate; and an error result (the terminal
`DecisionMakerError`) is impossible for non-empty candidates. -/
theorem c9_decision_total {α : Type} (cfg : FrameworkConfig) (responses : List α)
    (serialize : α → Except String String) (messages : List Message)
    (decisionRemote : List Message → Nat → AttemptOutcome α)
    (r : α) (rs : List α) (h : responses = r :: rs) :
    (∃ v, (make_decision cfg responses serialize messages decisionRemote).result = .ok v) ∧
    (∀ m c, decisionBody cfg responses serialize messages decisionRemote = .raised m c →
      (make_decision cfg responses serialize messages decisionRemote).result = .ok r) ∧
    (∀ e, (make_decision cfg responses serialize messages decisionRemote).result ≠ .error e) := by
  subst h
  cases hb : decisionBody cfg (r :: rs) serialize messages decisionRemote with
  | value v c =>
      refine ⟨⟨v, ?_⟩, ?_, ?_⟩
      · simp [make_decision, hb]
      · intro m c' hraised
        cases hraised
      · intro e he
        simp [make_decision, hb] at he
  | raised m c =>
      refine ⟨⟨r, ?_⟩, ?_, ?_⟩
      · simp [make_decision, hb]
      · intro m' c' _
        simp [make_decision, hb]
      · intro e he
        simp [make_decision, hb] at he

/-- Witness for C9: with the single candidate 5 and an arbitration behavior
that always raises, the decision step returns a value, returns 5 on any
body exception, and cannot produce an error. -/
theorem c9_witness :
    (∃ v, (make_decision (α := Nat) ⟨1, 0, "P"⟩ [5] (fun n => .ok (toString n))
        [[("role", "user"), ("content", "q")]] (fun _ _ => .exc (.other "boom"))).result = .ok v) ∧
    (∀ m c, decisionBody (α := Nat) ⟨1, 0, "P"⟩ [5] (fun n => .ok (toString n))
        [[("role", "user"), ("content", "q")]] (fun _ _ => .exc (.other "boom")) = .raised m c →
      (make_decision (α := Nat) ⟨1, 0, "P"⟩ [5] (fun n => .ok (toString n))
        [[("role", "user"), ("content", "q")]] (fun _ _ => .exc (.other "boom"))).result = .ok 5) ∧
    (∀ e, (make_decision (α := Nat) ⟨1, 0, "P"⟩ [5] (fun n => .ok (toString n))
        [[("role", "user"), ("content", "q")]] (fun _ _ => .exc (.other "boom"))).result ≠ .error e) :=
  c9_decision_total ⟨1, 0, "P"⟩ [5] (fun n => .ok (toString n))
    [[("role", "user"), ("content", "q")]] (fun _ _ => .exc (.other "boom")) 5 [] rfl

/-- Claim C10: an empty model name, an empty messages list, a falsy response
format, or a response format that is not a `BaseModel` subclass makes
`_parse_internal` raise a `ValidationError` with zero worker tasks spawned
and zero remote (arbitration) calls made. -/
theorem c10_input_validation {α : Type} (cfg : FrameworkConfig) (model : String)
    (messages : List Message) (rfp rfb : Bool)
    (finalize : α → FinalizeOutcome α) (extra : List (String × String))
    (workerRemote : List (String × String) → Nat → Nat → AttemptOutcome α)
    (serialize : α → Except String String)
    (decisionRemote : List Message → Nat → AttemptOutcome α)
    (hbad : model = "" ∨ messages = [] ∨ rfp = false ∨ rfb = false) :
    ∃ msg, parse_internal cfg model messages rfp rfb finalize extra workerRemote
        serialize decisionRemote =
      ⟨.error (.validation msg none), 0, 0, 0⟩ := by
  by_cases h1 : model = ""
  · exact ⟨"Model name is required", by simp [parse_internal, parseBody, h1]; rfl⟩
  · by_cases h2 : messages = []
    · exact ⟨"Messages are required", by simp [parse_internal, parseBody, h1, h2]; rfl⟩
    · by_cases h3 : rfp = false
      · refine ⟨"Response format is required", ?_⟩
        subst h3
        simp [parse_internal, parseBody, h1, h2]
        rfl
      · have h3' : rfp = true := by
          cases rfp
          · exact absurd rfl h3
          · rfl
        have h4 : rfb = false := by
          rcases hbad with h | h | h | h
          · exact absurd h h1
          · exact absurd h h2
          · exact absurd h h3
          · exact h
        refine ⟨"Response format must be a Pydantic BaseModel", ?_⟩
        subst h3'
        subst h4
        simp [parse_internal, parseBody, h1, h2]
        rfl

/-- Witness for C10: an empty model name yields a `ValidationError` before
any worker is spawned or any remote call is made. -/
theorem c10_witness :
    (("" : String) = "" ∨ ([[("role", "user"), ("content", "q")]] : List Message) = [] ∨
      true = false ∨ true = false) ∧
    ∃ msg, parse_internal (α := Nat) ⟨3, 2, "P"⟩ "" [[("role", "user"), ("content", "q")]]
        true true (fun _ => .conforms) [] (fun _ _ _ => .ok 0)
        (fun n => .ok (toString n)) (fun _ _ => .ok 0) =
      ⟨.error (.validation msg none), 0, 0, 0⟩ :=
  ⟨Or.inl rfl,
   c10_input_validation ⟨3, 2, "P"⟩ "" [[("role", "user"), ("content", "q")]] true true
     (fun _ => .conforms) [] (fun _ _ _ => .ok 0)
     (fun n => .ok (toString n)) (fun _ _ => .ok 0) (Or.inl rfl)⟩

end PLLM
